import Mathlib

/-!
Shallow embedding of `src/compiled/interface/trainDataGenerator.h`
(class `djc::trainDataGenerator<T>`).

Samples are abstract values of a type `α`.  A `trainData<T>` buffer is the
list of its samples; `trainData` itself is code of this repository that is
not under `src/`, so its container operations are modelled from the spec,
section 6: `nElements` is the list length, `append` is concatenation,
`split n` takes the first `n` samples and retains the rest in place,
`clear` empties the container, `readFromFile` replaces the content with
the file content.  A file is identified by its path (a `String`) and the
filesystem is a map `String → List α` giving the samples stored in a file.

The background read thread is modelled by an `Option String` field that
holds the file targeted by a pending read; joining the thread materialises
the read into `buffer_read` (the thread's only write target).  In the
epoch machinery every read is assumed to succeed; the retry loop of
`readBuffer` is modelled separately, with an explicit per-attempt outcome
oracle, further below.

`size_t` counters are unbounded naturals.  The one place where unsigned
wrap-around is observable on reachable states (`lastBatch`'s subtraction)
is modelled with an explicit modulus `2 ^ 64`.
-/

/-- The `size_t` modulus, `2 ^ 64`. -/
def w64 : Nat := 18446744073709551616

/-- State of `djc::trainDataGenerator<T>` - the data members of the C++
class, with the trailing underscores dropped.  `randomcount` is the C++
`int` member (always nonnegative in any run, so modelled as `Nat`). -/
structure GenState (α : Type) where
  orig_infiles : List String
  shuffled_infiles : List String
  randomcount : Nat
  batchsize : Nat
  buffer_store : List α
  buffer_read : List α
  readthread : Option String
  nextread : String
  filecount : Nat
  nbatches : Nat
  ntotal : Nat
  nsamplesprocessed : Nat
  lastbatchsize : Nat
  filetimeout : Nat
  threading : Bool
  debug : Bool
deriving DecidableEq

/-- The default constructor `trainDataGenerator<T>::trainDataGenerator()`:
`debug(false), randomcount_(1), batchsize_(2), readthread_(0),
filecount_(0), nbatches_(0), ntotal_(0), nsamplesprocessed_(0),
lastbatchsize_(0), filetimeout_(10), threading_(true)`; the file lists are
default-constructed empty and `nextread_` is the empty string. -/
def initState {α : Type} : GenState α where
  orig_infiles := []
  shuffled_infiles := []
  randomcount := 1
  batchsize := 2
  buffer_store := []
  buffer_read := []
  readthread := none
  nextread := ""
  filecount := 0
  nbatches := 0
  ntotal := 0
  nsamplesprocessed := 0
  lastbatchsize := 0
  filetimeout := 10
  threading := true
  debug := false

/-- Joining the background read thread: if a read of file `f` is pending,
its completed `readFromFile` has replaced `buffer_read` with the content
of `f`; the thread object is deleted.  (Models `readthread_->join();
delete readthread_;` under the assumption that the read succeeds.) -/
def joinThread (fs : String → List α) (s : GenState α) : GenState α :=
  match s.readthread with
  | some f => { s with buffer_read := fs f, readthread := none }
  | none => s

/-- `trainDataGenerator<T>::lastBatch()`: the C++ test
`nsamplesprocessed_ >= ntotal_ - lastbatchsize_`, where the subtraction is
`size_t` arithmetic, i.e. taken modulo `2 ^ 64`. -/
def lastBatch (s : GenState α) : Bool :=
  decide ((((s.ntotal : Int) - (s.lastbatchsize : Int)) % (w64 : Int)) ≤ (s.nsamplesprocessed : Int))

/-- `trainDataGenerator<T>::setBatchSize(size_t)`:
`batchsize_ = nelements; nbatches_ = ntotal_ / batchsize_;`. -/
def setBatchSize (nelements : Nat) (s : GenState α) : GenState α :=
  { s with batchsize := nelements, nbatches := s.ntotal / nelements }

/-- `trainDataGenerator<T>::setFileTimeout(size_t)`. -/
def setFileTimeout (seconds : Nat) (s : GenState α) : GenState α :=
  { s with filetimeout := seconds }

/-- `trainDataGenerator<T>::enableThreading(bool)`. -/
def enableThreading (en : Bool) (s : GenState α) : GenState α :=
  { s with threading := en }

/-- `trainDataGenerator<T>::end()`: join and delete the read thread if one
exists, and null the pointer. -/
def endGen (fs : String → List α) (s : GenState α) : GenState α :=
  joinThread fs s

/-- The loop body of `trainDataGenerator<T>::readNTotal()`: for each file,
`readShapesFromFile` yields the feature shapes (`shapes f`, the vector
`fs` in the source); the file is rejected when `fs.size() < 1 ||
fs.at(0).size() < 1`, otherwise `ntotal_ += fs.at(0).at(0)` (the leading
dimension of the first feature shape).  Returns the throw status together
with the value of the `ntotal_` accumulator (which the C++ code has
already mutated when it throws). -/
def readNTotalAux (shapes : String → List (List Nat)) : List String → Nat → (Except String Unit) × Nat
  | [], acc => (Except.ok (), acc)
  | f :: rest, acc =>
    match shapes f with
    | [] => (Except.error ("trainDataGenerator<T>::readNTotal: no features filled in trainData object " ++ f), acc)
    | s0 :: _ =>
      match s0 with
      | [] => (Except.error ("trainDataGenerator<T>::readNTotal: no features filled in trainData object " ++ f), acc)
      | n :: _ => readNTotalAux shapes rest (acc + n)

/-- `trainDataGenerator<T>::readNTotal()` as a pure function of the shape
metadata and the file list: the computed total sample count, or the error
thrown on the first malformed file. -/
def readNTotalExc (shapes : String → List (List Nat)) (files : List String) : Except String Nat :=
  match readNTotalAux shapes files 0 with
  | (Except.ok _, t) => Except.ok t
  | (Except.error m, _) => Except.error m

/-- `trainDataGenerator<T>::setFileList(files)`: stores
`orig_infiles_ = files`, `shuffled_infiles_ = orig_infiles_`, then runs
`readNTotal()` (which also recomputes `nbatches_ = ntotal_ / batchsize_`
on success).  The first component is the throw status; the second is the
object state afterwards - on a throw, `orig_infiles_`, `shuffled_infiles_`
and the partially accumulated `ntotal_` have already been written. -/
def setFileListEx (shapes : String → List (List Nat)) (files : List String) (s : GenState α) : (Except String Unit) × GenState α :=
  match readNTotalAux shapes files 0 with
  | (Except.ok _, t) =>
    (Except.ok (), { s with orig_infiles := files, shuffled_infiles := files,
                            ntotal := t, nbatches := t / s.batchsize })
  | (Except.error m, t) =>
    (Except.error m, { s with orig_infiles := files, shuffled_infiles := files, ntotal := t })

/-- `trainDataGenerator<T>::shuffleFilelist()`: `std::shuffle` of
`shuffled_infiles_` with an `mt19937` engine.  The engine is constructed
from a `random_device` value but immediately re-seeded with
`g.seed(randomcount_)`, which resets its entire state, so the resulting
permutation is a pure function of the seed and the input list; that pure
function is the parameter `shuf`.  Afterwards `randomcount_++`. -/
def shuffleFilelist (shuf : Nat → List String → List String) (s : GenState α) : GenState α :=
  { s with shuffled_infiles := shuf s.randomcount s.shuffled_infiles,
           randomcount := s.randomcount + 1 }

/-- The reset performed at the start of `prepareNextEpoch()`: join and
delete any running read thread, `buffer_store.clear(); buffer_read.clear();
filecount_ = 0; nsamplesprocessed_ = 0;`.  (Whatever the joined thread had
written into `buffer_read` is immediately cleared, so the join is modelled
as dropping the pending read.) -/
def clearForEpoch (s : GenState α) : GenState α :=
  { s with buffer_store := ([] : List α), buffer_read := ([] : List α),
           filecount := 0, nsamplesprocessed := 0, readthread := none }

/-- `trainDataGenerator<T>::prepareNextEpoch()`: join any running read
thread, clear both buffers, reset `filecount_` and `nsamplesprocessed_`
to 0, shuffle the file list, set `nextread_ = shuffled_infiles_.at(filecount_)`
(note: `filecount_` is 0 and is NOT advanced here) and launch the read
thread on `readBuffer`.  `.at` throws `std::out_of_range` on an empty
list; the first component is the throw status and the second the state
afterwards (mutations before the throw persist). -/
def prepareNextEpochEx (shuf : Nat → List String → List String) (s : GenState α) : (Except String Unit) × GenState α :=
  match (shuffleFilelist shuf (clearForEpoch s)).shuffled_infiles.get?
      (shuffleFilelist shuf (clearForEpoch s)).filecount with
  | some f =>
    (Except.ok (), { shuffleFilelist shuf (clearForEpoch s) with nextread := f, readthread := some f })
  | none =>
    (Except.error "prepareNextEpoch: shuffled_infiles_.at(filecount_) out of range",
      shuffleFilelist shuf (clearForEpoch s))

/-- Result of the `while` loop of `prepareBatch`: the loop exited normally
(`done`), threw (`fail`), or did not terminate within the given fuel
(`out`, modelling divergence of the C++ loop). -/
inductive LoopRes (α : Type) where
  | done (s : GenState α)
  | fail (s : GenState α) (msg : String)
  | out (s : GenState α)
deriving DecidableEq

/-- The generator state carried by a loop result. -/
def LoopRes.state : LoopRes α → GenState α
  | .done s => s
  | .fail s _ => s
  | .out s => s

/-- Is the loop result a fuel exhaustion (C++ non-termination)? -/
def LoopRes.isOut : LoopRes α → Bool
  | .out _ => true
  | _ => false

/-- The first half of a loop iteration of `prepareBatch`: join the read
thread if one exists (`if (readthread_) { join; delete; readthread_ = 0; }`),
then `buffer_store.append(buffer_read); buffer_read.clear();`. -/
def appendReadBuffer (fs : String → List α) (s : GenState α) : GenState α :=
  { joinThread fs s with
      buffer_store := (joinThread fs s).buffer_store ++ (joinThread fs s).buffer_read,
      buffer_read := ([] : List α) }

/-- The dispatch step of a loop iteration of `prepareBatch`:
`nextread_ = shuffled_infiles_.at(filecount_); filecount_++;` and launch a
read thread on `readBuffer` (targeting `nextread_`). -/
def dispatchNext (s : GenState α) : GenState α :=
  { s with nextread := s.shuffled_infiles.getD s.filecount "",
           filecount := s.filecount + 1,
           readthread := some (s.shuffled_infiles.getD s.filecount "") }

/-- The `while (bufferelements < batchsize_)` loop of
`trainDataGenerator<T>::prepareBatch()`.  Each iteration: join the read
thread if one exists; `buffer_store.append(buffer_read)`;
`buffer_read.clear()`; recompute `bufferelements`; then, if
`nsamplesprocessed_ + bufferelements < ntotal_`, throw when
`filecount_ >= shuffled_infiles_.size()`, otherwise set
`nextread_ = shuffled_infiles_.at(filecount_)`, advance `filecount_` and
launch a new read thread.  `fuel` bounds the number of iterations of the
model; the C++ loop has no such bound and can run forever. -/
def prepareBatchLoop (fs : String → List α) : Nat → GenState α → LoopRes α
  | 0, s =>
    if s.buffer_store.length < s.batchsize then .out s else .done s
  | fuel + 1, s =>
    if s.buffer_store.length < s.batchsize then
      if (appendReadBuffer fs s).nsamplesprocessed + (appendReadBuffer fs s).buffer_store.length
          < (appendReadBuffer fs s).ntotal then
        if (appendReadBuffer fs s).shuffled_infiles.length ≤ (appendReadBuffer fs s).filecount then
          .fail (appendReadBuffer fs s)
            "trainDataGenerator<T>::getBatch: more batches requested than data in the sample"
        else
          prepareBatchLoop fs fuel (dispatchNext (appendReadBuffer fs s))
      else
        prepareBatchLoop fs fuel (appendReadBuffer fs s)
    else .done s

/-- Result of `getBatch`/`prepareBatch`: the returned batch and the state
afterwards, a thrown exception, or non-termination of the C++ loop. -/
inductive BatchRes (α : Type) where
  | ok (batch : List α) (s : GenState α)
  | fail (s : GenState α) (msg : String)
  | out (s : GenState α)
deriving DecidableEq

/-- The generator state carried by a batch result. -/
def BatchRes.state : BatchRes α → GenState α
  | .ok _ s => s
  | .fail s _ => s
  | .out s => s

/-- The batch carried by a successful batch result. -/
def BatchRes.batchOf : BatchRes α → Option (List α)
  | .ok b _ => some b
  | _ => none

/-- Is the batch result a fuel exhaustion (C++ non-termination)? -/
def BatchRes.isOut : BatchRes α → Bool
  | .out _ => true
  | _ => false

/-- `trainDataGenerator<T>::prepareBatch()`: run the buffering loop, then
`nsamplesprocessed_ += batchsize_; lastbatchsize_ = batchsize_;` and
return `buffer_store.split(batchsize_)` - the first `batchsize_` samples,
with the remainder retained in `buffer_store`. -/
def prepareBatch (fs : String → List α) (fuel : Nat) (s : GenState α) : BatchRes α :=
  match prepareBatchLoop fs fuel s with
  | .done t =>
    .ok (t.buffer_store.take t.batchsize)
      { t with buffer_store := t.buffer_store.drop t.batchsize,
               nsamplesprocessed := t.nsamplesprocessed + t.batchsize,
               lastbatchsize := t.batchsize }
  | .fail t m => .fail t m
  | .out t => .out t

/-- `trainDataGenerator<T>::getBatch()`: `return prepareBatch();`. -/
def getBatch (fs : String → List α) (fuel : Nat) (s : GenState α) : BatchRes α :=
  prepareBatch fs fuel s

/-- Run `n` successive `getBatch` calls, returning the final state when
every call returns a batch, and `none` otherwise. -/
def runBatches (fs : String → List α) (fuel : Nat) : Nat → GenState α → Option (GenState α)
  | 0, s => some s
  | n + 1, s =>
    match prepareBatch fs fuel s with
    | .ok _ s1 => runBatches fs fuel n s1
    | _ => none

/-- The public operations of `trainDataGenerator<T>`, as data. -/
inductive GenOp where
  | setFileList (files : List String)
  | setBatchSize (n : Nat)
  | setFileTimeout (n : Nat)
  | enableThreading (b : Bool)
  | prepareNextEpoch
  | getBatch (fuel : Nat)
  | endGen
deriving DecidableEq

/-- Apply one public operation to the generator state.  Operations that
can throw leave behind their partially mutated state, as the C++ object
would. -/
def applyOp (shapes : String → List (List Nat)) (fs : String → List α)
    (shuf : Nat → List String → List String) : GenOp → GenState α → GenState α
  | .setFileList files, s => (setFileListEx shapes files s).2
  | .setBatchSize n, s => setBatchSize n s
  | .setFileTimeout n, s => setFileTimeout n s
  | .enableThreading b, s => enableThreading b s
  | .prepareNextEpoch, s => (prepareNextEpochEx shuf s).2
  | .getBatch fuel, s => (prepareBatch fs fuel s).state
  | .endGen, s => endGen fs s

/-- Apply a sequence of public operations, left to right. -/
def applyOps (shapes : String → List (List Nat)) (fs : String → List α)
    (shuf : Nat → List String → List String) (ops : List GenOp) (s : GenState α) : GenState α :=
  ops.foldl (fun t op => applyOp shapes fs shuf op t) s

/-!
The retry loop of `trainDataGenerator<T>::readBuffer()`.

Each iteration of the `while (ntries < filetimeout_)` loop consults the
filesystem once: either the file does not exist (`io::fileExists` false -
skip the read, `sleep(1); ntries++`), or it exists and
`buffer_read.readFromFile(nextread_)` throws a parse error (caught:
`ntries += 1` inside the catch block, then `sleep(1); ntries++` at the
bottom of the loop - the budget is charged twice), or the read succeeds
and the function returns.  When the loop exits, `buffer_read.clear()`
runs and a `runtime_error` naming the file is thrown.

The environment is an oracle giving the outcome of the `i`-th attempt; a
parse error may leave behind whatever partial content the failed
`readFromFile` wrote into `buffer_read`.
-/

/-- Outcome of one attempt to load a file. -/
inductive ReadOutcome (α : Type) where
  | absent
  | parseError (leftover : List α)
  | success (content : List α)
deriving DecidableEq

/-- Does the outcome complete the read? -/
def isSuccessO : ReadOutcome α → Bool
  | .success _ => true
  | _ => false

/-- How many units of the retry budget (`ntries`) one failed attempt
consumes: a missing file costs 1 (`ntries++` at the bottom of the loop);
a parse error costs 2 (`ntries += 1` in the catch block plus `ntries++`
at the bottom of the loop). -/
def failCost : ReadOutcome α → Nat
  | .absent => 1
  | .parseError _ => 2
  | .success _ => 0

/-- Budget consumed by the first `k` attempts (which are assumed failed). -/
def consumedBudget (oracle : Nat → ReadOutcome α) : Nat → Nat
  | 0 => 0
  | k + 1 => failCost (oracle 0) + consumedBudget (fun i => oracle (i + 1)) k

/-- The retry loop of `readBuffer`, tracking the `ntries` counter and the
current content of `buffer_read`.  Returns the throw status and the value
of `buffer_read` afterwards.  The oracle is shifted at each recursive
call, so `oracle i` is always the outcome of the `i`-th remaining
attempt. -/
def readBufferAux (fname : String) (timeout : Nat) (oracle : Nat → ReadOutcome α)
    (ntries : Nat) (buf : List α) : (Except String Unit) × List α :=
  if _h : ntries < timeout then
    match oracle 0 with
    | .success c => (Except.ok (), c)
    | .parseError leftover => readBufferAux fname timeout (fun i => oracle (i + 1)) (ntries + 2) leftover
    | .absent => readBufferAux fname timeout (fun i => oracle (i + 1)) (ntries + 1) buf
  else
    (Except.error ("trainDataGenerator<T>::readBuffer: file " ++ fname ++ " could not be read."), [])
termination_by timeout - ntries
decreasing_by
  all_goals omega

/-- `trainDataGenerator<T>::readBuffer()`: the retry loop started with
`ntries = 0`, on the file `fname` with retry budget `timeout`
(`filetimeout_`), against the attempt oracle, with `buf` the content of
`buffer_read` at entry. -/
def readBuffer (fname : String) (timeout : Nat) (oracle : Nat → ReadOutcome α)
    (buf : List α) : (Except String Unit) × List α :=
  readBufferAux fname timeout oracle 0 buf

/-!
Concrete scenarios used by the claims.

Scenario A: two files `"A"` (samples `[10, 11]`) and `"B"` (samples
`[20, 21]`), batch size 2, so `ntotal = 4` and `nbatches = 2`; the shuffle
is instantiated with the identity permutation.

Scenario B: the worked example of the spec - file `"A"` with 100 samples
and file `"B"` with 150 samples, batch size 100, so `ntotal = 250` and
`nbatches = 2`; identity shuffle.
-/

/-- Identity instantiation of the shuffle permutation. -/
def shufId : Nat → List String → List String := fun _ l => l

/-- Reversal instantiation of the shuffle permutation. -/
def shufRev : Nat → List String → List String := fun _ l => l.reverse

/-- Scenario A filesystem. -/
def fsA : String → List Nat :=
  fun f => if f = "A" then [10, 11] else if f = "B" then [20, 21] else []

/-- Scenario A shape metadata: one feature array per file, whose leading
dimension is the sample count. -/
def shapesA : String → List (List Nat) :=
  fun f => [[(fsA f).length]]

/-- Scenario A after `setFileList({"A","B"})` and `setBatchSize(2)`. -/
def genA1 : GenState Nat :=
  setBatchSize 2 (setFileListEx shapesA ["A", "B"] initState).2

/-- Scenario A after `prepareNextEpoch()`. -/
def genA2 : GenState Nat :=
  (prepareNextEpochEx shufId genA1).2

/-- Scenario A: result of the first `getBatch()`. -/
def batA1 : BatchRes Nat := getBatch fsA 9 genA2

/-- Scenario A state after the first `getBatch()`. -/
def genA3 : GenState Nat := batA1.state

/-- Scenario A: result of the second `getBatch()`. -/
def batA2 : BatchRes Nat := getBatch fsA 9 genA3

/-- Scenario A state after the second `getBatch()`. -/
def genA4 : GenState Nat := batA2.state

/-- Scenario B filesystem: 100 samples of value 0 in file `"A"`, 150
samples of value 1 in file `"B"`. -/
def fsB : String → List Nat :=
  fun f => if f = "A" then List.replicate 100 0 else if f = "B" then List.replicate 150 1 else []

/-- Scenario B shape metadata. -/
def shapesB : String → List (List Nat) :=
  fun f => [[(fsB f).length]]

/-- Scenario B after `setFileList({"A","B"})` and `setBatchSize(100)`. -/
def genB1 : GenState Nat :=
  setBatchSize 100 (setFileListEx shapesB ["A", "B"] initState).2

/-- Scenario B after `prepareNextEpoch()`. -/
def genB2 : GenState Nat :=
  (prepareNextEpochEx shufId genB1).2

/-- Scenario B: result of the first `getBatch()`. -/
def batB1 : BatchRes Nat := getBatch fsB 9 genB2

/-- Scenario B: result of the second `getBatch()`. -/
def batB2 : BatchRes Nat := getBatch fsB 9 batB1.state

/-- Scenario B: result of the third `getBatch()`. -/
def batB3 : BatchRes Nat := getBatch fsB 9 batB2.state

/-- Scenario B state after the third `getBatch()`. -/
def genB4 : GenState Nat := batB3.state

/-- The attempt oracle of the claim C3 counterexample: the first attempt
is a parse error, every later attempt would succeed with content `[7]`. -/
def oracleCex : Nat → ReadOutcome Nat :=
  fun i => if i = 0 then ReadOutcome.parseError [] else ReadOutcome.success [7]

/-- Attempt oracle for the claim C3 witness: the first attempt finds the
file absent, the second succeeds with content `[3]`. -/
def oracleW : Nat → ReadOutcome Nat :=
  fun i => if i = 0 then ReadOutcome.absent else ReadOutcome.success [3]

/-- Iterate `shuffleFilelist` on the generator state. -/
def shuffleIter (shuf : Nat → List String → List String) (s : GenState α) : Nat → GenState α
  | 0 => s
  | n + 1 => shuffleIter shuf (shuffleFilelist shuf s) n

/-- The sequence of shuffled file orders produced by `n` successive
`shuffleFilelist` calls (one per epoch). -/
def epochOrders (shuf : Nat → List String → List String) (s : GenState α) : Nat → List (List String)
  | 0 => []
  | n + 1 =>
    (shuffleFilelist shuf s).shuffled_infiles :: epochOrders shuf (shuffleFilelist shuf s) n

/-- Does a file's feature-shape metadata pass the `readNTotal` check
`fs.size() >= 1 && fs.at(0).size() >= 1`? -/
def shapeOk : List (List Nat) → Bool
  | (_ :: _) :: _ => true
  | _ => false

/-- The leading dimension of the first feature shape (`fs.at(0).at(0)`),
0 when absent. -/
def leadingDim : List (List Nat) → Nat
  | (n :: _) :: _ => n
  | _ => 0

/-- Shape metadata for the claim C8 counterexample: a single feature
array that reports zero samples (leading dimension 0). -/
def shapesZ : String → List (List Nat) := fun _ => [[0]]

/-- A shuffle instantiation that actually depends on the seed. -/
def shufAlt : Nat → List String → List String :=
  fun c l => if c % 2 = 0 then l.reverse else l

/-- A generator state for the claim C6 witness. -/
def sW : GenState Nat :=
  { initState with shuffled_infiles := ["A", "B", "C"], randomcount := 4 }

/-- A second state for the claim C6 witness: the same shuffle counter and
shuffled list as `sW`, but otherwise different fields. -/
def tW : GenState Nat :=
  { sW with batchsize := 7, nsamplesprocessed := 12, orig_infiles := ["C", "B", "A"] }

/-!
Helper lemmas.
-/

theorem joinThread_orig (fs : String → List α) (s : GenState α) :
    (joinThread fs s).orig_infiles = s.orig_infiles := by
  unfold joinThread; cases s.readthread <;> rfl

theorem joinThread_shuffled (fs : String → List α) (s : GenState α) :
    (joinThread fs s).shuffled_infiles = s.shuffled_infiles := by
  unfold joinThread; cases s.readthread <;> rfl

theorem joinThread_randomcount (fs : String → List α) (s : GenState α) :
    (joinThread fs s).randomcount = s.randomcount := by
  unfold joinThread; cases s.readthread <;> rfl

theorem joinThread_nsamplesprocessed (fs : String → List α) (s : GenState α) :
    (joinThread fs s).nsamplesprocessed = s.nsamplesprocessed := by
  unfold joinThread; cases s.readthread <;> rfl

theorem joinThread_batchsize (fs : String → List α) (s : GenState α) :
    (joinThread fs s).batchsize = s.batchsize := by
  unfold joinThread; cases s.readthread <;> rfl

theorem joinThread_ntotal (fs : String → List α) (s : GenState α) :
    (joinThread fs s).ntotal = s.ntotal := by
  unfold joinThread; cases s.readthread <;> rfl

theorem joinThread_filecount (fs : String → List α) (s : GenState α) :
    (joinThread fs s).filecount = s.filecount := by
  unfold joinThread; cases s.readthread <;> rfl

theorem joinThread_buffer_store (fs : String → List α) (s : GenState α) :
    (joinThread fs s).buffer_store = s.buffer_store := by
  unfold joinThread; cases s.readthread <;> rfl

theorem appendReadBuffer_orig (fs : String → List α) (s : GenState α) :
    (appendReadBuffer fs s).orig_infiles = s.orig_infiles := by
  simp [appendReadBuffer, joinThread_orig]

theorem appendReadBuffer_shuffled (fs : String → List α) (s : GenState α) :
    (appendReadBuffer fs s).shuffled_infiles = s.shuffled_infiles := by
  simp [appendReadBuffer, joinThread_shuffled]

theorem appendReadBuffer_nsamplesprocessed (fs : String → List α) (s : GenState α) :
    (appendReadBuffer fs s).nsamplesprocessed = s.nsamplesprocessed := by
  simp [appendReadBuffer, joinThread_nsamplesprocessed]

theorem appendReadBuffer_batchsize (fs : String → List α) (s : GenState α) :
    (appendReadBuffer fs s).batchsize = s.batchsize := by
  simp [appendReadBuffer, joinThread_batchsize]

theorem appendReadBuffer_ntotal (fs : String → List α) (s : GenState α) :
    (appendReadBuffer fs s).ntotal = s.ntotal := by
  simp [appendReadBuffer, joinThread_ntotal]

theorem appendReadBuffer_filecount (fs : String → List α) (s : GenState α) :
    (appendReadBuffer fs s).filecount = s.filecount := by
  simp [appendReadBuffer, joinThread_filecount]

theorem dispatchNext_orig (s : GenState α) :
    (dispatchNext s).orig_infiles = s.orig_infiles := rfl

theorem dispatchNext_shuffled (s : GenState α) :
    (dispatchNext s).shuffled_infiles = s.shuffled_infiles := rfl

theorem dispatchNext_nsamplesprocessed (s : GenState α) :
    (dispatchNext s).nsamplesprocessed = s.nsamplesprocessed := rfl

theorem dispatchNext_batchsize (s : GenState α) :
    (dispatchNext s).batchsize = s.batchsize := rfl

theorem dispatchNext_ntotal (s : GenState α) :
    (dispatchNext s).ntotal = s.ntotal := rfl

theorem prepareBatchLoop_preserves (fs : String → List α) :
    ∀ (fuel : Nat) (s : GenState α),
      (prepareBatchLoop fs fuel s).state.orig_infiles = s.orig_infiles ∧
      (prepareBatchLoop fs fuel s).state.shuffled_infiles = s.shuffled_infiles ∧
      (prepareBatchLoop fs fuel s).state.nsamplesprocessed = s.nsamplesprocessed ∧
      (prepareBatchLoop fs fuel s).state.batchsize = s.batchsize ∧
      (prepareBatchLoop fs fuel s).state.ntotal = s.ntotal := by
  intro fuel
  induction fuel with
  | zero =>
    intro s
    unfold prepareBatchLoop
    split <;> simp [LoopRes.state]
  | succ n ih =>
    intro s
    unfold prepareBatchLoop
    split
    · split
      · split
        · simp [LoopRes.state, appendReadBuffer_orig, appendReadBuffer_shuffled,
            appendReadBuffer_nsamplesprocessed, appendReadBuffer_batchsize, appendReadBuffer_ntotal]
        · exact ⟨((ih _).1).trans
              (by simp [dispatchNext_orig, appendReadBuffer_orig]),
            ((ih _).2.1).trans
              (by simp [dispatchNext_shuffled, appendReadBuffer_shuffled]),
            ((ih _).2.2.1).trans
              (by simp [dispatchNext_nsamplesprocessed, appendReadBuffer_nsamplesprocessed]),
            ((ih _).2.2.2.1).trans
              (by simp [dispatchNext_batchsize, appendReadBuffer_batchsize]),
            ((ih _).2.2.2.2).trans
              (by simp [dispatchNext_ntotal, appendReadBuffer_ntotal])⟩
      · exact ⟨((ih _).1).trans (appendReadBuffer_orig fs s),
          ((ih _).2.1).trans (appendReadBuffer_shuffled fs s),
          ((ih _).2.2.1).trans (appendReadBuffer_nsamplesprocessed fs s),
          ((ih _).2.2.2.1).trans (appendReadBuffer_batchsize fs s),
          ((ih _).2.2.2.2).trans (appendReadBuffer_ntotal fs s)⟩
    · simp [LoopRes.state]

theorem prepareBatchLoop_spin (fs : String → List α) :
    ∀ (fuel : Nat) (s : GenState α),
      s.readthread = none → s.buffer_read = [] →
      s.buffer_store.length < s.batchsize →
      s.ntotal ≤ s.nsamplesprocessed + s.buffer_store.length →
      (prepareBatchLoop fs fuel s).isOut = true := by
  intro fuel
  induction fuel with
  | zero =>
    intro s h1 h2 h3 h4
    unfold prepareBatchLoop
    rw [if_pos h3]
    rfl
  | succ n ih =>
    intro s h1 h2 h3 h4
    have hj : joinThread fs s = s := by unfold joinThread; rw [h1]
    have ha : appendReadBuffer fs s =
        { s with buffer_store := s.buffer_store ++ [], buffer_read := [] } := by
      unfold appendReadBuffer
      rw [hj, h2]
    unfold prepareBatchLoop
    rw [if_pos h3, ha]
    rw [if_neg (by simp; omega)]
    apply ih
    · simpa using h1
    · rfl
    · simpa using h3
    · simpa using h4

theorem prepareBatch_ok_fields (fs : String → List α) (fuel : Nat) (s : GenState α)
    (b : List α) (s1 : GenState α) (h : prepareBatch fs fuel s = BatchRes.ok b s1) :
    s1.nsamplesprocessed = s.nsamplesprocessed + s.batchsize ∧
    s1.lastbatchsize = s.batchsize ∧
    s1.batchsize = s.batchsize ∧
    s1.ntotal = s.ntotal := by
  have hp := prepareBatchLoop_preserves fs fuel s
  unfold prepareBatch at h
  cases hl : prepareBatchLoop fs fuel s with
  | done t =>
    rw [hl] at h hp
    simp only [LoopRes.state] at hp
    rw [BatchRes.ok.injEq] at h
    rw [← h.2]
    refine ⟨?_, ?_, ?_, ?_⟩ <;> simp [hp.2.2.1, hp.2.2.2.1, hp.2.2.2.2]
  | fail t m =>
    rw [hl] at h
    simp at h
  | out t =>
    rw [hl] at h
    simp at h

theorem runBatches_fields (fs : String → List α) (fuel : Nat) :
    ∀ (n : Nat) (s s1 : GenState α), runBatches fs fuel n s = some s1 →
      s1.nsamplesprocessed = s.nsamplesprocessed + n * s.batchsize ∧
      s1.batchsize = s.batchsize ∧
      s1.ntotal = s.ntotal ∧
      (0 < n → s1.lastbatchsize = s.batchsize) := by
  intro n
  induction n with
  | zero =>
    intro s s1 h
    unfold runBatches at h
    rw [Option.some.injEq] at h
    rw [← h]
    simp
  | succ n ih =>
    intro s s1 h
    unfold runBatches at h
    cases hb : prepareBatch fs fuel s with
    | ok b t =>
      rw [hb] at h
      have hf := prepareBatch_ok_fields fs fuel s b t hb
      have hr := ih t s1 h
      refine ⟨?_, ?_, ?_, ?_⟩
      · rw [hr.1, hf.1, hf.2.2.1, Nat.succ_mul]
        omega
      · rw [hr.2.1, hf.2.2.1]
      · rw [hr.2.2.1, hf.2.2.2]
      · intro _
        rcases Nat.eq_zero_or_pos n with hn | hn
        · subst hn
          unfold runBatches at h
          rw [Option.some.injEq] at h
          rw [← h]
          exact hf.2.1
        · exact (hr.2.2.2 hn).trans hf.2.2.1
    | fail t m =>
      rw [hb] at h
      simp at h
    | out t =>
      rw [hb] at h
      simp at h

theorem lastBatch_nowrap (s : GenState α) (hle : s.lastbatchsize ≤ s.ntotal)
    (hlt : s.ntotal - s.lastbatchsize < w64) :
    (lastBatch s = true ↔ s.ntotal ≤ s.nsamplesprocessed + s.lastbatchsize) := by
  unfold lastBatch
  rw [decide_eq_true_eq]
  have h0 : (0 : Int) ≤ (s.ntotal : Int) - (s.lastbatchsize : Int) := by
    omega
  have h1 : ((s.ntotal : Int) - (s.lastbatchsize : Int)) < (w64 : Int) := by
    unfold w64 at hlt ⊢
    omega
  rw [Int.emod_eq_of_lt h0 h1]
  omega

theorem readBufferAux_success (fname : String) (timeout : Nat) :
    ∀ (k : Nat) (oracle : Nat → ReadOutcome α) (ntries : Nat) (buf c : List α),
      (∀ i, i < k → isSuccessO (oracle i) = false) →
      oracle k = ReadOutcome.success c →
      ntries + consumedBudget oracle k < timeout →
      readBufferAux fname timeout oracle ntries buf = (Except.ok (), c) := by
  intro k
  induction k with
  | zero =>
    intro oracle ntries buf c hpre hk hlt
    have hnt : ntries < timeout := by
      simp only [consumedBudget] at hlt
      omega
    unfold readBufferAux
    rw [dif_pos hnt, hk]
  | succ k ih =>
    intro oracle ntries buf c hpre hk hlt
    have hcb : consumedBudget oracle (k + 1) =
        failCost (oracle 0) + consumedBudget (fun i => oracle (i + 1)) k := rfl
    have hnt : ntries < timeout := by omega
    unfold readBufferAux
    rw [dif_pos hnt]
    cases ho : oracle 0 with
    | success c2 =>
      have h0 := hpre 0 (Nat.succ_pos k)
      rw [ho] at h0
      simp [isSuccessO] at h0
    | absent =>
      apply ih (fun i => oracle (i + 1)) (ntries + 1) buf c
      · intro i hi
        exact hpre (i + 1) (by omega)
      · exact hk
      · rw [hcb, ho] at hlt
        simp [failCost] at hlt
        omega
    | parseError l =>
      apply ih (fun i => oracle (i + 1)) (ntries + 2) l c
      · intro i hi
        exact hpre (i + 1) (by omega)
      · exact hk
      · rw [hcb, ho] at hlt
        simp [failCost] at hlt
        omega

theorem readBufferAux_fail (fname : String) (timeout : Nat) :
    ∀ (k : Nat) (oracle : Nat → ReadOutcome α) (ntries : Nat) (buf : List α),
      (∀ i, i < k → isSuccessO (oracle i) = false) →
      timeout ≤ ntries + consumedBudget oracle k →
      readBufferAux fname timeout oracle ntries buf =
        (Except.error ("trainDataGenerator<T>::readBuffer: file " ++ fname ++ " could not be read."), []) := by
  intro k
  induction k with
  | zero =>
    intro oracle ntries buf hpre hge
    have hnt : ¬ ntries < timeout := by
      simp only [consumedBudget] at hge
      omega
    unfold readBufferAux
    rw [dif_neg hnt]
  | succ k ih =>
    intro oracle ntries buf hpre hge
    have hcb : consumedBudget oracle (k + 1) =
        failCost (oracle 0) + consumedBudget (fun i => oracle (i + 1)) k := rfl
    by_cases hnt : ntries < timeout
    · unfold readBufferAux
      rw [dif_pos hnt]
      cases ho : oracle 0 with
      | success c2 =>
        have h0 := hpre 0 (Nat.succ_pos k)
        rw [ho] at h0
        simp [isSuccessO] at h0
      | absent =>
        apply ih (fun i => oracle (i + 1)) (ntries + 1) buf
        · intro i hi
          exact hpre (i + 1) (by omega)
        · rw [hcb, ho] at hge
          simp [failCost] at hge
          omega
      | parseError l =>
        apply ih (fun i => oracle (i + 1)) (ntries + 2) l
        · intro i hi
          exact hpre (i + 1) (by omega)
        · rw [hcb, ho] at hge
          simp [failCost] at hge
          omega
    · unfold readBufferAux
      rw [dif_neg hnt]

theorem readNTotalAux_ok (shapes : String → List (List Nat)) :
    ∀ (files : List String) (acc : Nat),
      (∀ f ∈ files, shapeOk (shapes f) = true) →
      readNTotalAux shapes files acc =
        (Except.ok (), acc + (files.map (fun f => leadingDim (shapes f))).sum) := by
  intro files
  induction files with
  | nil =>
    intro acc h
    simp [readNTotalAux]
  | cons f rest ih =>
    intro acc h
    have hf : shapeOk (shapes f) = true := h f (List.mem_cons_self f rest)
    unfold readNTotalAux
    cases hs : shapes f with
    | nil =>
      rw [hs] at hf
      simp [shapeOk] at hf
    | cons s0 srest =>
      cases hs0 : s0 with
      | nil =>
        rw [hs, hs0] at hf
        simp [shapeOk] at hf
      | cons n ns =>
        dsimp only
        rw [ih (acc + n) (fun g hg => h g (List.mem_cons_of_mem f hg))]
        simp [List.map_cons, List.sum_cons, leadingDim, hs, hs0]
        omega

theorem readNTotalAux_err (shapes : String → List (List Nat)) :
    ∀ (files : List String) (acc : Nat),
      (∃ f ∈ files, shapeOk (shapes f) = false) →
      ∃ m t, readNTotalAux shapes files acc = (Except.error m, t) := by
  intro files
  induction files with
  | nil =>
    intro acc h
    simp at h
  | cons f rest ih =>
    intro acc h
    unfold readNTotalAux
    cases hs : shapes f with
    | nil =>
      exact ⟨_, acc, rfl⟩
    | cons s0 srest =>
      cases hs0 : s0 with
      | nil =>
        exact ⟨_, acc, rfl⟩
      | cons n ns =>
        rcases h with ⟨g, hg, hbad⟩
        rcases List.mem_cons.mp hg with hgf | hgr
        · rw [hgf, hs, hs0] at hbad
          simp [shapeOk] at hbad
        · exact ih (acc + n) ⟨g, hgr, hbad⟩

theorem epochOrders_congr (shuf : Nat → List String → List String) :
    ∀ (n : Nat) (s t : GenState α),
      s.randomcount = t.randomcount → s.shuffled_infiles = t.shuffled_infiles →
      epochOrders shuf s n = epochOrders shuf t n := by
  intro n
  induction n with
  | zero =>
    intro s t hc hl
    rfl
  | succ n ih =>
    intro s t hc hl
    unfold epochOrders
    rw [List.cons.injEq]
    constructor
    · simp [shuffleFilelist, hc, hl]
    · apply ih
      · simp [shuffleFilelist, hc]
      · simp [shuffleFilelist, hc, hl]

theorem shuffleIter_randomcount (shuf : Nat → List String → List String) :
    ∀ (n : Nat) (s : GenState α),
      (shuffleIter shuf s n).randomcount = s.randomcount + n := by
  intro n
  induction n with
  | zero =>
    intro s
    rfl
  | succ n ih =>
    intro s
    unfold shuffleIter
    rw [ih]
    simp [shuffleFilelist]
    omega

theorem prepareNextEpochEx_processed (shuf : Nat → List String → List String) (s : GenState α) :
    (prepareNextEpochEx shuf s).2.nsamplesprocessed = 0 := by
  unfold prepareNextEpochEx
  split <;> rfl

theorem prepareNextEpochEx_lists (shuf : Nat → List String → List String) (s : GenState α) :
    (prepareNextEpochEx shuf s).2.orig_infiles = s.orig_infiles ∧
    (prepareNextEpochEx shuf s).2.shuffled_infiles = shuf s.randomcount s.shuffled_infiles := by
  unfold prepareNextEpochEx
  split <;> exact ⟨rfl, rfl⟩

theorem setFileListEx_lists (shapes : String → List (List Nat)) (files : List String) (s : GenState α) :
    (setFileListEx shapes files s).2.orig_infiles = files ∧
    (setFileListEx shapes files s).2.shuffled_infiles = files := by
  unfold setFileListEx
  split <;> exact ⟨rfl, rfl⟩

theorem prepareBatch_lists (fs : String → List α) (fuel : Nat) (s : GenState α) :
    (prepareBatch fs fuel s).state.orig_infiles = s.orig_infiles ∧
    (prepareBatch fs fuel s).state.shuffled_infiles = s.shuffled_infiles := by
  have hp := prepareBatchLoop_preserves fs fuel s
  unfold prepareBatch
  cases hl : prepareBatchLoop fs fuel s with
  | done t =>
    rw [hl] at hp
    simp only [LoopRes.state] at hp
    exact ⟨hp.1, hp.2.1⟩
  | fail t m =>
    rw [hl] at hp
    simp only [LoopRes.state] at hp
    exact ⟨hp.1, hp.2.1⟩
  | out t =>
    rw [hl] at hp
    simp only [LoopRes.state] at hp
    exact ⟨hp.1, hp.2.1⟩

theorem applyOp_perm (shapes : String → List (List Nat)) (fs : String → List α)
    (shuf : Nat → List String → List String)
    (hperm : ∀ c l, (shuf c l).Perm l)
    (op : GenOp) (s : GenState α)
    (h : s.shuffled_infiles.Perm s.orig_infiles) :
    ((applyOp shapes fs shuf op s).shuffled_infiles).Perm
      (applyOp shapes fs shuf op s).orig_infiles := by
  cases op with
  | setFileList files =>
    have hl := setFileListEx_lists shapes files s
    unfold applyOp
    rw [hl.1, hl.2]
  | setBatchSize n => exact h
  | setFileTimeout n => exact h
  | enableThreading b => exact h
  | prepareNextEpoch =>
    have hl := prepareNextEpochEx_lists shuf (s := s)
    unfold applyOp
    rw [hl.1, hl.2]
    exact (hperm s.randomcount s.shuffled_infiles).trans h
  | getBatch fuel =>
    have hl := prepareBatch_lists fs fuel s
    unfold applyOp
    rw [hl.1, hl.2]
    exact h
  | endGen =>
    unfold applyOp endGen
    rw [joinThread_orig, joinThread_shuffled]
    exact h

theorem applyOps_perm (shapes : String → List (List Nat)) (fs : String → List α)
    (shuf : Nat → List String → List String)
    (hperm : ∀ c l, (shuf c l).Perm l) :
    ∀ (ops : List GenOp) (s : GenState α),
      s.shuffled_infiles.Perm s.orig_infiles →
      ((applyOps shapes fs shuf ops s).shuffled_infiles).Perm
        (applyOps shapes fs shuf ops s).orig_infiles := by
  intro ops
  induction ops with
  | nil =>
    intro s h
    exact h
  | cons op rest ih =>
    intro s h
    exact ih (applyOp shapes fs shuf op s) (applyOp_perm shapes fs shuf hperm op s h)

/-!
The claims.
-/

set_option maxRecDepth 400000

/-- Claim C1 (code bug).  The claim states that the concatenation of the
batches of an epoch equals the concatenation of the samples of the files
in the epoch's shuffled order, with no sample duplicated or dropped.  The
code violates this: `prepareNextEpoch` dispatches `shuffled_infiles_[0]`
without advancing `filecount_`, so the first `getBatch` dispatches
`shuffled_infiles_[filecount_ = 0]` - the same file - again.  In scenario
A (files `"A" = [10, 11]`, `"B" = [20, 21]`, batch size 2, identity
shuffle) the two batches of the epoch are both `[10, 11]`: the samples of
`"A"` are duplicated and the samples of `"B"` are never returned. -/
theorem claim1_filecursor_bug :
    batA1.batchOf = some [10, 11] ∧
    batA2.batchOf = some [10, 11] ∧
    genA2.shuffled_infiles = ["A", "B"] ∧
    genA1.nbatches = 2 ∧
    [10, 11] ++ [10, 11] ≠ fsA "A" ++ fsA "B" := by
  decide

/-- Claim C2 (code bug).  The claim (and the spec's worked example)
states that with files of 100 and 150 samples and batch size 100 the
third `getBatch` call fails with an insufficient-data error and neither
hangs nor returns.  Because of the unadvanced file cursor the code
instead re-reads the first file: the first two batches both come from
file `"A"`, the third call returns a full batch of file `"B"`'s samples,
and a fourth call loops forever (each iteration appends an empty
`buffer_read` and never dispatches a new file, modelled as fuel
exhaustion at every fuel). -/
theorem claim2_third_getbatch_returns :
    batB1.batchOf = some (List.replicate 100 0) ∧
    batB2.batchOf = some (List.replicate 100 0) ∧
    batB3.batchOf = some (List.replicate 100 1) ∧
    genB1.nbatches = 2 ∧
    (∀ fuel : Nat, (getBatch fsB fuel genB4).isOut = true) := by
  refine ⟨by decide, by decide, by decide, by decide, ?_⟩
  intro fuel
  have hs := prepareBatchLoop_spin fsB fuel genB4 (by decide) (by decide) (by decide) (by decide)
  unfold getBatch prepareBatch
  cases hl : prepareBatchLoop fsB fuel genB4 with
  | done t =>
    rw [hl] at hs
    simp [LoopRes.isOut] at hs
  | fail t m =>
    rw [hl] at hs
    simp [LoopRes.isOut] at hs
  | out t =>
    rfl

/-- Claim C3, counterexample.  The claim states that the reader makes up
to `retryBudget` attempts in total regardless of the kind of failure.
With budget 2 and an oracle whose first attempt is a parse error and
whose second attempt would succeed, the code fails after the single
failed attempt: the parse error is charged twice (`ntries += 1` in the
catch block and `ntries++` at the bottom of the loop), so the second
attempt never happens. -/
theorem claim3_counterexample :
    readBuffer "data.djctd" 2 oracleCex [] =
      (Except.error "trainDataGenerator<T>::readBuffer: file data.djctd could not be read.", []) ∧
    isSuccessO (oracleCex 0) = false ∧
    oracleCex 1 = ReadOutcome.success [7] := by
  refine ⟨?_, by decide, by decide⟩
  simp [readBuffer, readBufferAux, oracleCex]

/-- Claim C3, amended.  On each failure the reader waits one time unit
and retries, but a failed attempt consumes one unit of the `retryBudget`
when the file was absent and two units when the file existed and parsing
threw; attempts continue while the consumed budget is below the budget
(so parse errors allow only about half as many attempts); only after the
budget is exhausted does the reader clear the target buffer and fail with
an error identifying the file. -/
theorem claim3_retry_budget :
    ∀ (oracle : Nat → ReadOutcome Nat) (fname : String) (timeout : Nat) (buf : List Nat),
      (∀ (k : Nat) (c : List Nat),
          (∀ i, i < k → isSuccessO (oracle i) = false) →
          oracle k = ReadOutcome.success c →
          consumedBudget oracle k < timeout →
          readBuffer fname timeout oracle buf = (Except.ok (), c)) ∧
      (∀ k : Nat,
          (∀ i, i < k → isSuccessO (oracle i) = false) →
          timeout ≤ consumedBudget oracle k →
          readBuffer fname timeout oracle buf =
            (Except.error ("trainDataGenerator<T>::readBuffer: file " ++ fname ++ " could not be read."), [])) := by
  intro oracle fname timeout buf
  constructor
  · intro k c hpre hk hlt
    exact readBufferAux_success fname timeout k oracle 0 buf c hpre hk (by simpa using hlt)
  · intro k hpre hge
    exact readBufferAux_fail fname timeout k oracle 0 buf hpre (by simpa using hge)

/-- Witness for the amended claim C3: with budget 2, a first attempt that
finds the file absent (cost 1) still leaves room for the second attempt,
which succeeds. -/
theorem claim3_retry_budget_witness :
    readBuffer "file0.djctd" 2 oracleW [] = (Except.ok (), [3]) :=
  (claim3_retry_budget oracleW "file0.djctd" 2 []).1 1 [3] (by decide) (by decide) (by decide)

/-- Claim C4 (code bug).  The claim states that `getNBatches()` returns
`floor(T / B)` and that exactly that many `getBatch` calls succeed per
epoch.  The accessor part holds (in scenario B, `250 / 100 = 2`), but
because `prepareNextEpoch` leaves the file cursor at 0 the epoch serves
THREE successful batches (the first file is read twice), so "exactly
`floor(T/B)` successful calls" fails on the code. -/
theorem claim4_nbatches_extra_batch :
    genB1.nbatches = 2 ∧
    genB1.ntotal = 250 ∧
    genB1.batchsize = 100 ∧
    (batB1.batchOf.map List.length) = some 100 ∧
    (batB2.batchOf.map List.length) = some 100 ∧
    (batB3.batchOf.map List.length) = some 100 := by
  decide

/-- Claim C5, counterexample.  The claim states that `lastBatch()`
becomes true exactly once per epoch.  In scenario A (`T = 4`, `B = 2`,
`floor(T/B) = 2` batches) both successful `getBatch` calls leave
`lastBatch()` true: after the first call `2 >= 4 - 2`, after the second
`4 >= 4 - 2` - true twice, because when `B` divides `T` the test
`samplesProcessed >= totalSamples - lastBatchSize` already holds one call
before the last. -/
theorem claim5_counterexample :
    genA1.nbatches = 2 ∧
    batA1.batchOf.isSome = true ∧
    batA2.batchOf.isSome = true ∧
    lastBatch genA3 = true ∧
    lastBatch genA4 = true := by
  decide

/-- Claim C5, amended.  `lastBatch()` returns true iff
`samplesProcessed >= totalSamples - lastBatchSize` (with the subtraction
read over the integers; equivalent to the code's `size_t` test whenever
`lastBatchSize <= totalSamples` and the difference fits in 64 bits), and
after `k >= 1` successful `getBatch` calls of an epoch it is true iff
`totalSamples <= (k + 1) * batchSize`: it becomes true on the call after
which `samplesProcessed` first reaches `totalSamples - lastBatchSize` and
stays true for the rest of the epoch - exactly once per epoch when `B`
does not divide `T`, but twice when `B` divides `T` and there are at
least two batches. -/
theorem claim5_lastbatch :
    (∀ s : GenState Nat, s.lastbatchsize ≤ s.ntotal → s.ntotal - s.lastbatchsize < w64 →
        (lastBatch s = true ↔ s.ntotal ≤ s.nsamplesprocessed + s.lastbatchsize)) ∧
    (∀ (fs : String → List Nat) (fuel k : Nat) (s s1 : GenState Nat),
        s.nsamplesprocessed = 0 → 0 < k → s.batchsize ≤ s.ntotal → s.ntotal < w64 →
        runBatches fs fuel k s = some s1 →
        (lastBatch s1 = true ↔ s.ntotal ≤ (k + 1) * s.batchsize)) := by
  constructor
  · intro s h1 h2
    exact lastBatch_nowrap s h1 h2
  · intro fs fuel k s s1 h0 hk hBT hT hrun
    have hf := runBatches_fields fs fuel k s s1 hrun
    have hlb : s1.lastbatchsize = s.batchsize := hf.2.2.2 hk
    have h1 : s1.lastbatchsize ≤ s1.ntotal := by
      rw [hlb, hf.2.2.1]
      exact hBT
    have h2 : s1.ntotal - s1.lastbatchsize < w64 := by
      rw [hlb, hf.2.2.1]
      omega
    rw [lastBatch_nowrap s1 h1 h2, hlb, hf.2.2.1, hf.1, h0, Nat.succ_mul]
    omega

/-- Witness for the amended claim C5: in scenario A, after the first of
the two batches (`k = 1`), `T = 4 <= (1 + 1) * 2` so `lastBatch()` is
already true. -/
theorem claim5_lastbatch_witness :
    lastBatch genA3 = true :=
  (claim5_lastbatch.2 fsA 9 1 genA2 genA3
    (by decide) (by decide) (by decide) (by decide) (by decide)).mpr (by decide)

/-- Claim C6 (confirmed).  The epoch shuffle is seeded with the counter
`randomcount_`, which the constructor initialises to 1 and which
increments by one on every `shuffleFilelist` call (the `mt19937` engine
is re-seeded with the counter, discarding the `random_device` entropy),
so two runs that start with the same counter value and the same file list
produce the identical sequence of shuffled file orders across all epochs,
for every shuffle permutation function. -/
theorem claim6_shuffle_determinism (shuf : Nat → List String → List String)
    (s t : GenState Nat) (n : Nat)
    (hc : s.randomcount = t.randomcount) (hl : s.shuffled_infiles = t.shuffled_infiles) :
    epochOrders shuf s n = epochOrders shuf t n ∧
    (shuffleIter shuf s n).randomcount = s.randomcount + n ∧
    (initState : GenState Nat).randomcount = 1 :=
  ⟨epochOrders_congr shuf n s t hc hl, shuffleIter_randomcount shuf n s, rfl⟩

/-- Witness for claim C6: two states that agree on the counter and the
shuffled list but differ elsewhere produce the same three epoch orders
under a seed-dependent shuffle. -/
theorem claim6_witness :
    epochOrders shufAlt sW 3 = epochOrders shufAlt tW 3 ∧
    (shuffleIter shufAlt sW 3).randomcount = sW.randomcount + 3 ∧
    (initState : GenState Nat).randomcount = 1 :=
  claim6_shuffle_determinism shufAlt sW tW 3 rfl rfl

/-- Claim C7 (confirmed).  Provided the external `std::shuffle` always
produces a permutation of its input, `shuffled_infiles_` is a permutation
of `orig_infiles_` in every state reachable from a fresh generator by any
sequence of public operations; and none of `setBatchSize`,
`setFileTimeout`, `enableThreading`, `getBatch` and `end` changes either
file list (the lists change only in `setFileList` and
`prepareNextEpoch`). -/
theorem claim7_perm_invariant (shapes : String → List (List Nat)) (fs : String → List Nat)
    (shuf : Nat → List String → List String) (hperm : ∀ c l, (shuf c l).Perm l) :
    (∀ ops : List GenOp,
        ((applyOps shapes fs shuf ops initState).shuffled_infiles).Perm
          (applyOps shapes fs shuf ops initState).orig_infiles) ∧
    (∀ (s : GenState Nat) (n : Nat),
        (applyOp shapes fs shuf (GenOp.setBatchSize n) s).shuffled_infiles = s.shuffled_infiles ∧
        (applyOp shapes fs shuf (GenOp.setBatchSize n) s).orig_infiles = s.orig_infiles) ∧
    (∀ (s : GenState Nat) (n : Nat),
        (applyOp shapes fs shuf (GenOp.setFileTimeout n) s).shuffled_infiles = s.shuffled_infiles ∧
        (applyOp shapes fs shuf (GenOp.setFileTimeout n) s).orig_infiles = s.orig_infiles) ∧
    (∀ (s : GenState Nat) (b : Bool),
        (applyOp shapes fs shuf (GenOp.enableThreading b) s).shuffled_infiles = s.shuffled_infiles ∧
        (applyOp shapes fs shuf (GenOp.enableThreading b) s).orig_infiles = s.orig_infiles) ∧
    (∀ (s : GenState Nat) (fuel : Nat),
        (applyOp shapes fs shuf (GenOp.getBatch fuel) s).shuffled_infiles = s.shuffled_infiles ∧
        (applyOp shapes fs shuf (GenOp.getBatch fuel) s).orig_infiles = s.orig_infiles) ∧
    (∀ s : GenState Nat,
        (applyOp shapes fs shuf GenOp.endGen s).shuffled_infiles = s.shuffled_infiles ∧
        (applyOp shapes fs shuf GenOp.endGen s).orig_infiles = s.orig_infiles) := by
  refine ⟨fun ops => applyOps_perm shapes fs shuf hperm ops initState (List.Perm.refl _),
    ?_, ?_, ?_, ?_, ?_⟩
  · intro s n
    exact ⟨rfl, rfl⟩
  · intro s n
    exact ⟨rfl, rfl⟩
  · intro s b
    exact ⟨rfl, rfl⟩
  · intro s fuel
    exact ⟨(prepareBatch_lists fs fuel s).2, (prepareBatch_lists fs fuel s).1⟩
  · intro s
    exact ⟨joinThread_shuffled fs s, joinThread_orig fs s⟩

/-- Witness for claim C7: a concrete run (set the file list, prepare an
epoch with the reversing shuffle, fetch one batch) ends in a state whose
shuffled list is a permutation of the original list. -/
theorem claim7_witness :
    ((applyOps shapesA fsA shufRev
        [GenOp.setFileList ["A", "B"], GenOp.prepareNextEpoch, GenOp.getBatch 9]
        initState).shuffled_infiles).Perm
      (applyOps shapesA fsA shufRev
        [GenOp.setFileList ["A", "B"], GenOp.prepareNextEpoch, GenOp.getBatch 9]
        initState).orig_infiles :=
  (claim7_perm_invariant shapesA fsA shufRev (fun _ l => List.reverse_perm l)).1 _

/-- Claim C8, counterexample.  The claim states that `setFileList` fails
with a malformed-file error whenever any file reports zero samples.  The
code only checks `fs.size() < 1 || fs.at(0).size() < 1`: a file whose
first feature shape is `[0]` (zero samples, one dimension) passes the
check and contributes 0 to `totalSamples` - `readNTotal` succeeds where
the claim requires a failure. -/
theorem claim8_counterexample :
    readNTotalExc shapesZ ["empty.djctd"] = Except.ok 0 ∧
    leadingDim (shapesZ "empty.djctd") = 0 :=
  ⟨rfl, rfl⟩

/-- Claim C8, amended.  `setFileList` computes `totalSamples` from shape
metadata alone: it fails with an error naming the file iff some file has
no feature shapes at all or an empty first feature shape; a file
reporting zero samples (leading dimension 0) is accepted and contributes
0; on success `totalSamples` equals the sum over all files of the first
entry of the first feature shape. -/
theorem claim8_readntotal (shapes : String → List (List Nat)) (files : List String) :
    ((∀ f ∈ files, shapeOk (shapes f) = true) →
        readNTotalExc shapes files =
          Except.ok ((files.map (fun f => leadingDim (shapes f))).sum)) ∧
    ((∃ f ∈ files, shapeOk (shapes f) = false) →
        ∃ m, readNTotalExc shapes files = Except.error m) := by
  constructor
  · intro h
    unfold readNTotalExc
    rw [readNTotalAux_ok shapes files 0 h]
    simp
  · intro h
    rcases readNTotalAux_err shapes files 0 h with ⟨m, t, hmt⟩
    unfold readNTotalExc
    rw [hmt]
    exact ⟨m, rfl⟩

/-- Witness for the amended claim C8: on scenario A's two well-formed
files the computed total is the sum of the leading dimensions. -/
theorem claim8_readntotal_witness :
    readNTotalExc shapesA ["A", "B"] =
      Except.ok (((["A", "B"] : List String).map (fun f => leadingDim (shapesA f))).sum) :=
  (claim8_readntotal shapesA ["A", "B"]).1 (by decide)

/-- Claim C9 (confirmed).  `prepareNextEpoch` joins any running worker,
resets `nsamplesprocessed_` and `filecount_` to 0, clears both buffers,
shuffles the file list, sets the first file of the new shuffled order as
the read target and launches exactly one background read; and a second
`prepareNextEpoch` immediately afterwards leaves `nsamplesprocessed_`
at 0. -/
theorem claim9_prepare_next_epoch (shuf : Nat → List String → List String)
    (s : GenState Nat) (f : String)
    (hf : (shuf s.randomcount s.shuffled_infiles).head? = some f) :
    (prepareNextEpochEx shuf s).1 = Except.ok () ∧
    (prepareNextEpochEx shuf s).2.nsamplesprocessed = 0 ∧
    (prepareNextEpochEx shuf s).2.filecount = 0 ∧
    (prepareNextEpochEx shuf s).2.buffer_store = [] ∧
    (prepareNextEpochEx shuf s).2.buffer_read = [] ∧
    (prepareNextEpochEx shuf s).2.nextread = f ∧
    (prepareNextEpochEx shuf s).2.readthread = some f ∧
    (prepareNextEpochEx shuf s).2.shuffled_infiles = shuf s.randomcount s.shuffled_infiles ∧
    (prepareNextEpochEx shuf ((prepareNextEpochEx shuf s).2)).2.nsamplesprocessed = 0 := by
  have hget : (shuffleFilelist shuf (clearForEpoch s)).shuffled_infiles.get?
      (shuffleFilelist shuf (clearForEpoch s)).filecount = some f := by
    show (shuf s.randomcount s.shuffled_infiles).get? 0 = some f
    rw [List.get?_zero]
    exact hf
  have hmain : prepareNextEpochEx shuf s =
      (Except.ok (), { shuffleFilelist shuf (clearForEpoch s) with
                         nextread := f, readthread := some f }) := by
    unfold prepareNextEpochEx
    rw [hget]
  rw [hmain]
  exact ⟨rfl, rfl, rfl, rfl, rfl, rfl, rfl, rfl, prepareNextEpochEx_processed shuf _⟩

/-- Witness for claim C9: the concrete scenario A epoch preparation. -/
theorem claim9_witness :
    (prepareNextEpochEx shufId genA1).1 = Except.ok () ∧
    (prepareNextEpochEx shufId genA1).2.nsamplesprocessed = 0 ∧
    (prepareNextEpochEx shufId genA1).2.filecount = 0 ∧
    (prepareNextEpochEx shufId genA1).2.buffer_store = [] ∧
    (prepareNextEpochEx shufId genA1).2.buffer_read = [] ∧
    (prepareNextEpochEx shufId genA1).2.nextread = "A" ∧
    (prepareNextEpochEx shufId genA1).2.readthread = some "A" ∧
    (prepareNextEpochEx shufId genA1).2.shuffled_infiles =
      shufId genA1.randomcount genA1.shuffled_infiles ∧
    (prepareNextEpochEx shufId ((prepareNextEpochEx shufId genA1).2)).2.nsamplesprocessed = 0 :=
  claim9_prepare_next_epoch shufId genA1 "A" (by decide)

/-- Claim C10 (confirmed).  On a freshly constructed generator all of
`nsamplesprocessed_`, `ntotal_` and `lastbatchsize_` are 0, so
`lastBatch()` already returns true (`0 >= 0 - 0`) before `setFileList` or
any `getBatch` call: a caller polling `lastBatch()` first observes a
spurious epoch-end signal. -/
theorem claim10_fresh_lastbatch :
    (initState : GenState Nat).nsamplesprocessed = 0 ∧
    (initState : GenState Nat).ntotal = 0 ∧
    (initState : GenState Nat).lastbatchsize = 0 ∧
    lastBatch (initState : GenState Nat) = true := by
  decide
